import Mathlib

/-!
Shallow embedding of the BitBox wallet app's local API gateway
(backend/handlers/handlers.go and frontends/qt/server/server.go),
with theorems checking the natural-language specification against it.

Machine integers are modelled as `Int`/`Nat` (no overflow is reachable in the
embedded code paths), Go strings as `String`, fallible steps as `Option`.
-/

namespace BitBoxGateway

/-- Connection data of the API: the port, the authorization token and the
derived dev-mode flag, as in the Go struct `ConnectionData`
(handlers.go lines 97-102). -/
structure ConnectionData where
  port : Int
  token : String
  devMode : Bool
  deriving DecidableEq, Repr

/-- Embedding of `NewConnectionData` (handlers.go lines 104-112).  The Go doc
comment says dev-mode is assumed "If the port is -1 or the token is empty",
but the constructor sets the field from `len(token) == 0` alone. -/
def NewConnectionData (port : Int) (token : String) : ConnectionData :=
  { port := port, token := token, devMode := token.length == 0 }

/-- Embedding of the method `isDev` (handlers.go lines 114-116):
`port == -1 || token == ""`. -/
def isDev (connectionData : ConnectionData) : Bool :=
  connectionData.port == -1 || connectionData.token == ""

/-- Result of the token gate: either the request is allowed through, or it was
answered with `http.Error(w, message, status)` and processing stopped. -/
inductive GateResult where
  | allowed : GateResult
  | denied (status : Nat) (message : String) : GateResult
  deriving DecidableEq, Repr

/-- Embedding of `isAPITokenValid` (handlers.go lines 532-553).  `authHeader`
is the value of `r.Header.Get("Authorization")`, which in Go is `""` when the
header is absent; `path` is `r.URL.Path`. -/
def isAPITokenValid (apiData : ConnectionData) (path authHeader : String) :
    GateResult :=
  if apiData.devMode then
    .allowed
  else if authHeader.length == 0 then
    .denied 401 ("missing token " ++ path)
  else if authHeader.length != 0 && authHeader != "Basic " ++ apiData.token then
    .denied 401 "incorrect token"
  else
    .allowed

/-- A route of the API router: its full path, its HTTP method (`""` when the
registration does not restrict the method) and whether the registration went
through `getAPIRouter`, i.e. was wrapped with `ensureAPITokenValid`
(handlers.go lines 138-143). -/
structure Route where
  path : String
  method : String
  tokenGated : Bool
  deriving DecidableEq, Repr

/-- The static route registrations of `NewHandlers` (handlers.go lines
145-170 and 215).  All routes are registered through `getAPIRouter` — and are
therefore wrapped with `ensureAPITokenValid` — except `/api/events`, which is
registered directly with `apiRouter.HandleFunc` on line 215.  The dynamically
mounted `/api/account/...` and `/api/devices/...` subtrees also go through
`getAPIRouter` and are token-gated. -/
def apiRoutes : List Route :=
  [⟨"/api/qr", "GET", true⟩,
   ⟨"/api/config", "GET", true⟩,
   ⟨"/api/config/default", "GET", true⟩,
   ⟨"/api/config", "POST", true⟩,
   ⟨"/api/open", "POST", true⟩,
   ⟨"/api/update", "GET", true⟩,
   ⟨"/api/version", "GET", true⟩,
   ⟨"/api/testing", "GET", true⟩,
   ⟨"/api/account-add", "POST", true⟩,
   ⟨"/api/accounts", "GET", true⟩,
   ⟨"/api/accounts-status", "GET", true⟩,
   ⟨"/api/test/register", "POST", true⟩,
   ⟨"/api/test/deregister", "POST", true⟩,
   ⟨"/api/rates", "GET", true⟩,
   ⟨"/api/coins/convertToFiat", "GET", true⟩,
   ⟨"/api/coins/convertFromFiat", "GET", true⟩,
   ⟨"/api/coins/tltc/headers/status", "GET", true⟩,
   ⟨"/api/coins/tbtc/headers/status", "GET", true⟩,
   ⟨"/api/coins/ltc/headers/status", "GET", true⟩,
   ⟨"/api/coins/btc/headers/status", "GET", true⟩,
   ⟨"/api/certs/download", "POST", true⟩,
   ⟨"/api/certs/check", "POST", true⟩,
   ⟨"/api/devices/registered", "GET", true⟩,
   ⟨"/api/events", "", false⟩]

/-- Whether a request was passed on to its business-logic handler, or was
rejected by the gate with an HTTP status and message. -/
inductive Admission where
  | dispatched : Admission
  | rejected (status : Nat) (message : String) : Admission
  deriving DecidableEq, Repr

/-- Admission of a request to a route: a token-gated route runs
`ensureAPITokenValid` (handlers.go lines 555-562), which calls the wrapped
handler exactly when `isAPITokenValid` returns true; a route registered
without the wrapper dispatches unconditionally. -/
def admitRequest (route : Route) (apiData : ConnectionData)
    (authHeader : String) : Admission :=
  if route.tokenGated then
    match isAPITokenValid apiData route.path authHeader with
    | .allowed => .dispatched
    | .denied status message => .rejected status message
  else
    .dispatched

theorem string_length_eq_zero_iff (s : String) : s.length = 0 ↔ s = "" := by
  constructor
  · intro h
    exact String.ext (List.length_eq_zero.mp h)
  · intro h
    subst h
    rfl

theorem empty_ne_basic (t : String) : "" ≠ "Basic " ++ t := by
  intro h
  have hlen : ("" : String).length = ("Basic " ++ t).length := by rw [← h]
  rw [String.length_append] at hlen
  have h6 : ("Basic " : String).length = 6 := rfl
  have h0 : ("" : String).length = 0 := rfl
  omega

/-- The token gate outside dev mode, characterised by plain string equality:
a missing header is denied as "missing token", a mismatching one as
"incorrect token", the exact `"Basic " ++ token` value is allowed through. -/
theorem isAPITokenValid_eq (apiData : ConnectionData) (path authHeader : String)
    (hdev : apiData.devMode = false) :
    isAPITokenValid apiData path authHeader =
      if authHeader = "" then .denied 401 ("missing token " ++ path)
      else if authHeader = "Basic " ++ apiData.token then .allowed
      else .denied 401 "incorrect token" := by
  unfold isAPITokenValid
  rw [hdev]
  by_cases hempty : authHeader = ""
  · subst hempty
    have e1 : (("" : String).length == 0) = true := rfl
    simp only [e1, Bool.false_eq_true, if_false, if_true]
  · have e1 : (authHeader.length == 0) = false := by
      refine beq_eq_false_iff_ne.mpr ?_
      intro h
      exact hempty ((string_length_eq_zero_iff authHeader).mp h)
    have e1' : (authHeader.length != 0) = true := by
      simp only [bne, e1, Bool.not_false]
    by_cases hmatch : authHeader = "Basic " ++ apiData.token
    · have e2 : (authHeader != "Basic " ++ apiData.token) = false := by
        rw [hmatch]
        simp only [bne, beq_self_eq_true, Bool.not_true]
      simp only [e1, e1', e2, Bool.and_false, Bool.false_eq_true, if_false,
        if_neg hempty, if_pos hmatch]

    · have e2 : (authHeader != "Basic " ++ apiData.token) = true := by
        simp only [bne, beq_eq_false_iff_ne.mpr hmatch, Bool.not_false]
      simp only [e1, e1', e2, Bool.and_true, Bool.false_eq_true, if_false,
        if_true, if_neg hempty, if_neg hmatch]

/-- C1 (amended): for every token-gated route, outside dev mode (as recorded
in the `devMode` field) a request is dispatched to business logic iff its
`Authorization` header is exactly `"Basic " ++ token`; a missing header is
rejected with 401 "missing token <path>", a mismatching one with 401
"incorrect token". -/
theorem gatedRoute_admission (route : Route) (_hroute : route ∈ apiRoutes)
    (hgated : route.tokenGated = true) (apiData : ConnectionData)
    (hdev : apiData.devMode = false) (authHeader : String) :
    (admitRequest route apiData authHeader = .dispatched ↔
      authHeader = "Basic " ++ apiData.token) ∧
    (authHeader = "" →
      admitRequest route apiData authHeader =
        .rejected 401 ("missing token " ++ route.path)) ∧
    (authHeader ≠ "" → authHeader ≠ "Basic " ++ apiData.token →
      admitRequest route apiData authHeader = .rejected 401 "incorrect token") := by
  clear _hroute
  have hgate := isAPITokenValid_eq apiData route.path authHeader hdev
  by_cases hempty : authHeader = ""
  · subst hempty
    rw [if_pos rfl] at hgate
    refine ⟨⟨fun h => ?_, fun h => absurd h (empty_ne_basic apiData.token)⟩,
      fun _ => ?_, fun h => absurd rfl h⟩
    · simp only [admitRequest, hgated, if_true, hgate] at h
      exact Admission.noConfusion h
    · simp only [admitRequest, hgated, if_true, hgate]
  · rw [if_neg hempty] at hgate
    by_cases hmatch : authHeader = "Basic " ++ apiData.token
    · rw [if_pos hmatch] at hgate
      refine ⟨⟨fun _ => hmatch, fun _ => ?_⟩, fun h => absurd h hempty,
        fun _ h => absurd hmatch h⟩
      simp only [admitRequest, hgated, if_true, hgate]
    · rw [if_neg hmatch] at hgate
      refine ⟨⟨fun h => ?_, fun h => absurd h hmatch⟩, fun h => absurd h hempty,
        fun _ _ => ?_⟩
      · simp only [admitRequest, hgated, if_true, hgate] at h
        exact Admission.noConfusion h
      · simp only [admitRequest, hgated, if_true, hgate]

theorem gatedRoute_admission_witness :
    admitRequest ⟨"/api/config", "GET", true⟩ (NewConnectionData 8082 "secret")
        "Basic secret" = .dispatched ∧
    admitRequest ⟨"/api/config", "GET", true⟩ (NewConnectionData 8082 "secret")
        "" = .rejected 401 "missing token /api/config" ∧
    admitRequest ⟨"/api/config", "GET", true⟩ (NewConnectionData 8082 "secret")
        "Basic wrong" = .rejected 401 "incorrect token" := by
  have h1 := gatedRoute_admission ⟨"/api/config", "GET", true⟩ (by decide) rfl
    (NewConnectionData 8082 "secret") (by decide) "Basic secret"
  have h2 := gatedRoute_admission ⟨"/api/config", "GET", true⟩ (by decide) rfl
    (NewConnectionData 8082 "secret") (by decide) ""
  have h3 := gatedRoute_admission ⟨"/api/config", "GET", true⟩ (by decide) rfl
    (NewConnectionData 8082 "secret") (by decide) "Basic wrong"
  exact ⟨h1.1.mpr (by decide), h2.2.1 rfl, h3.2.2 (by decide) (by decide)⟩

/-- C1 (counterexample): the push-channel endpoint `/api/events` is registered
without the token-gate wrapper (handlers.go line 215), so outside dev mode a
request to it with no `Authorization` header is dispatched to the events
handler instead of being denied with an unauthorized status. -/
theorem events_route_not_gated :
    (⟨"/api/events", "", false⟩ : Route) ∈ apiRoutes ∧
    (NewConnectionData 8082 "secret").devMode = false ∧
    admitRequest ⟨"/api/events", "", false⟩ (NewConnectionData 8082 "secret") "" =
      .dispatched := by
  decide

/-- C2: the constructor `NewConnectionData` derives `devMode` from the token
alone (`len(token) == 0`, handlers.go line 110), ignoring the port: at
port `-1` with a non-empty token the field is `false`, although the method
`isDev` — and the constructor's own doc comment — treat that very
configuration as dev mode. -/
theorem newConnectionData_devMode_ignores_port :
    (NewConnectionData (-1) "secret").devMode = false ∧
    isDev (NewConnectionData (-1) "secret") = true ∧
    ∀ (port : Int) (token : String),
      (NewConnectionData port token).devMode = (token.length == 0) := by
  exact ⟨by decide, by decide, fun _ _ => rfl⟩

/-- JSON values, as produced by `encoding/json` for the values the handlers
return. -/
inductive JSONValue where
  | null : JSONValue
  | bool (b : Bool) : JSONValue
  | num (n : Int) : JSONValue
  | str (s : String) : JSONValue
  | arr (xs : List JSONValue) : JSONValue
  | obj (fields : List (String × JSONValue)) : JSONValue

/-- Escape of one character inside a JSON string literal.  Go additionally
escapes control characters and (by default) the HTML characters; those cases
are elided since no embedded code path produces them. -/
def escapeJSONChar (c : Char) : String :=
  if c = '"' then "\\\""
  else if c = '\\' then "\\\\"
  else String.singleton c

/-- A JSON string literal: the escaped characters between double quotes. -/
def quoteJSONString (s : String) : String :=
  "\"" ++ String.join (s.toList.map escapeJSONChar) ++ "\""

mutual

/-- Serialization of a JSON value, modelling `json.NewEncoder(w).Encode`
(handlers.go `writeJSON`, lines 222-226). -/
def serializeJSON : JSONValue → String
  | .null => "null"
  | .bool true => "true"
  | .bool false => "false"
  | .num n => toString n
  | .str s => quoteJSONString s
  | .arr xs => "[" ++ serializeJSONList xs ++ "]"
  | .obj fields => "\x7b" ++ serializeJSONFields fields ++ "\x7d"

/-- Comma-separated serialization of the elements of a JSON array. -/
def serializeJSONList : List JSONValue → String
  | [] => ""
  | [x] => serializeJSON x
  | x :: y :: xs => serializeJSON x ++ "," ++ serializeJSONList (y :: xs)

/-- Comma-separated serialization of the fields of a JSON object. -/
def serializeJSONFields : List (String × JSONValue) → String
  | [] => ""
  | [(key, value)] => quoteJSONString key ++ ":" ++ serializeJSON value
  | (key, value) :: kv :: fields =>
      quoteJSONString key ++ ":" ++ serializeJSON value ++ "," ++
        serializeJSONFields (kv :: fields)

end

/-- What the invocation of a business function `f(r)` did: returned a value,
returned an error, or panicked with a fault. -/
inductive HandlerOutcome where
  | ok (value : JSONValue) : HandlerOutcome
  | err (message : String) : HandlerOutcome
  | panicked (fault : String) : HandlerOutcome

/-- An HTTP response as assembled by the dispatcher: status code (Go's
`ResponseWriter` defaults to 200 when `WriteHeader` is never called), the
`Content-Type` and `Access-Control-Allow-Origin` headers, and the body. -/
structure HTTPResponse where
  status : Nat
  contentType : Option String
  corsAllowOrigin : Option String
  body : String
  deriving DecidableEq, Repr

/-- Embedding of `apiMiddleware` (handlers.go lines 564-588): set the content
type, in dev mode also the fixed cross-origin header, run the business
function; a returned error or a recovered panic is written as an object with
an "error" field, a returned value is serialized as-is; `WriteHeader` is never
called, so every path leaves the default success status 200. -/
def apiMiddleware (devMode : Bool) (outcome : HandlerOutcome) : HTTPResponse :=
  let headersSet : HTTPResponse :=
    { status := 200
      contentType := some "text/json"
      corsAllowOrigin := if devMode then some "http://localhost:8080" else none
      body := "" }
  match outcome with
  | .ok value => { headersSet with body := serializeJSON value }
  | .err message =>
      { headersSet with body := serializeJSON (.obj [("error", .str message)]) }
  | .panicked fault =>
      { headersSet with body := serializeJSON (.obj [("error", .str fault)]) }

/-- One worker per request: the process answers every request of a sequence,
each through the middleware, regardless of earlier panics. -/
def serveRequests (devMode : Bool) (outcomes : List HandlerOutcome) :
    List HTTPResponse :=
  outcomes.map (apiMiddleware devMode)

/-- The full static pipeline for a single request: the token gate first
(`ensureAPITokenValid`), then `apiMiddleware` applied to the business
function's outcome.  `NewHandlers` passes `connData.isDev()` as the
middleware's dev flag (handlers.go line 140); the gate's rejection goes
through `http.Error`, which sets a plain-text content type and appends a
newline to the message. -/
def handleRequest (route : Route) (apiData : ConnectionData)
    (authHeader : String) (outcome : HandlerOutcome) : HTTPResponse :=
  match admitRequest route apiData authHeader with
  | .dispatched => apiMiddleware (isDev apiData) outcome
  | .rejected status message =>
      { status := status
        contentType := some "text/plain; charset=utf-8"
        corsAllowOrigin := none
        body := message ++ "\n" }

/-- C3: the dispatcher yields the serialization of the returned value on
success, the serialization of an object with the error message under "error"
on a returned error, the same shape for a recovered panic; all three paths
answer with the default success status 200, and a sequence of requests is
answered in full even when some of them panic. -/
theorem dispatcher_envelope (devMode : Bool) (value : JSONValue)
    (message fault : String) (outcomes : List HandlerOutcome) :
    (apiMiddleware devMode (.ok value)).body = serializeJSON value ∧
    (apiMiddleware devMode (.err message)).body =
      serializeJSON (.obj [("error", .str message)]) ∧
    (apiMiddleware devMode (.panicked fault)).body =
      serializeJSON (.obj [("error", .str fault)]) ∧
    (apiMiddleware devMode (.ok value)).status = 200 ∧
    (apiMiddleware devMode (.err message)).status = 200 ∧
    (apiMiddleware devMode (.panicked fault)).status = 200 ∧
    serveRequests devMode (.panicked fault :: outcomes) =
      apiMiddleware devMode (.panicked fault) :: serveRequests devMode outcomes := by
  exact ⟨rfl, rfl, rfl, rfl, rfl, rfl, rfl⟩

/-- C4 (code evaluation at the failing input): with port `-1` and a non-empty
token the configuration is development mode by the spec's definition (and by
`isDev`), yet a request without an `Authorization` header to a token-gated
route is rejected with 401 and never reaches business logic, because the gate
consults the `devMode` field, which `NewConnectionData` derived from the token
alone. -/
theorem devMode_request_rejected_despite_isDev :
    isDev (NewConnectionData (-1) "secret") = true ∧
    handleRequest ⟨"/api/config", "GET", true⟩ (NewConnectionData (-1) "secret")
        "" (.ok .null) =
      { status := 401
        contentType := some "text/plain; charset=utf-8"
        corsAllowOrigin := none
        body := "missing token /api/config\n" } := by
  exact ⟨rfl, rfl⟩

/-- The literal URL allow-list of `postOpenHandler`
(handlers.go lines 265-272). -/
def whitelistedURLs : List String :=
  ["https://shiftcrypto.ch/contact",
   "https://shiftcrypto.ch/shop",
   "https://shiftcrypto.ch/backup",
   "https://www.cryptocompare.com",
   "https://bitcoincore.org/en/2016/01/26/segwit-benefits/",
   "https://en.bitcoin.it/wiki/Bech32_adoption"]

/-- Match of a `^`-anchored regular expression whose remaining characters are
all literal: the subject begins with the pattern's literal text. -/
def matchesAnchored (litText url : String) : Bool :=
  litText.data.isPrefixOf url.data

/-- The regular-expression allow-list of `postOpenHandler` (handlers.go lines
279-295), written out as the anchored-prefix tests the concrete patterns
denote: every pattern is `^`-anchored with only literal (quoted) characters,
except the first one's optional `(testnet/)?` group, which expands to two
prefixes; the last pattern is `^` followed by the quoted downloads
directory. -/
def matchesWhitelistedPattern (downloadDir url : String) : Bool :=
  matchesAnchored "https://blockstream.info/tx/" url ||
  matchesAnchored "https://blockstream.info/testnet/tx/" url ||
  matchesAnchored "http://explorer.litecointools.com/tx/" url ||
  matchesAnchored "https://insight.litecore.io/tx/" url ||
  matchesAnchored "https://etherscan.io/tx/" url ||
  matchesAnchored "https://rinkeby.etherscan.io/tx/" url ||
  matchesAnchored "https://ropsten.etherscan.io/tx/" url ||
  matchesAnchored downloadDir url

/-- What `postOpenHandler` did: whether `system.Open` was invoked (and with
which URL), and the returned error, if any. -/
structure OpenOutcome where
  openerCalledWith : Option String
  error : Option String
  deriving DecidableEq, Repr

/-- Embedding of `postOpenHandler` (handlers.go lines 257-307) after the JSON
body has been decoded into `url` and `utilConfig.DownloadsDir()` has returned
`downloadDir`: a `blocked` flag starts true, is cleared by a literal
allow-list hit or by a pattern hit, and decides between the blocked-URL error
and the call to `system.Open`. -/
def postOpenHandler (downloadDir url : String) : OpenOutcome :=
  let blocked := true
  let blocked := if whitelistedURLs.any (fun w => url == w) then false else blocked
  let blocked := if matchesWhitelistedPattern downloadDir url then false else blocked
  if blocked then
    { openerCalledWith := none, error := some ("Blocked /open with url: " ++ url) }
  else
    { openerCalledWith := some url, error := none }

/-- A URL the handler lets through: a literal allow-list member, a pattern
match, or a URL inside the downloads directory (the last pattern). -/
def urlAllowed (downloadDir url : String) : Bool :=
  whitelistedURLs.any (fun w => url == w) || matchesWhitelistedPattern downloadDir url

set_option maxRecDepth 8192 in
/-- C5: for every URL posted to /api/open, the handler invokes the system URL
opener exactly when the URL is allow-listed (literal, pattern, or downloads
directory) and otherwise returns the blocked-URL error without invoking the
opener; in particular the spec's examples behave as stated. -/
theorem open_allowList (downloadDir url : String) :
    (postOpenHandler downloadDir url =
      if urlAllowed downloadDir url then
        { openerCalledWith := some url, error := none }
      else
        { openerCalledWith := none,
          error := some ("Blocked /open with url: " ++ url) }) ∧
    postOpenHandler downloadDir "https://shiftcrypto.ch/shop" =
      { openerCalledWith := some "https://shiftcrypto.ch/shop", error := none } ∧
    postOpenHandler "/home/user/Downloads" "https://evil.example/phish" =
      { openerCalledWith := none,
        error := some "Blocked /open with url: https://evil.example/phish" } ∧
    postOpenHandler "/home/user/Downloads" "/home/user/Downloads/export.csv" =
      { openerCalledWith := some "/home/user/Downloads/export.csv",
        error := none } := by
  refine ⟨?_, ?_, by decide, by decide⟩
  · unfold postOpenHandler urlAllowed
    cases hlit : whitelistedURLs.any (fun w => url == w) <;>
      cases hpat : matchesWhitelistedPattern downloadDir url <;>
      simp
  · have hmem : whitelistedURLs.any
        (fun w => "https://shiftcrypto.ch/shop" == w) = true := by decide
    unfold postOpenHandler
    rw [hmem]
    cases matchesWhitelistedPattern downloadDir "https://shiftcrypto.ch/shop" <;>
      simp

/-- A handler registry as in `NewHandlers` (handlers.go lines 172-204): the
map from entity key to the constructed sub-handler (identified by the number
of the `NewHandlers` construction that produced it), together with the number
of constructions performed so far and the route subtrees mounted so far.  The
`locker.Locker` that guards it serializes the calls, so the registry evolves
by the atomic steps below. -/
structure HandlersRegistry where
  entries : List (String × Nat)
  constructed : Nat
  subtrees : List String
  deriving DecidableEq, Repr

/-- Embedding of the lock-guarded lookup-or-create closure (`getAccountHandlers`,
handlers.go lines 175-185, with path root "/account/"; `getDeviceHandlers`,
lines 196-204, with path root "/devices/"): under the lock, if the key is not
in the map, construct a sub-handler bound to a freshly mounted route subtree
at the root concatenated with the key and store it; then return the map's
entry for the key. -/
def getOrCreate (pathRoot : String) (reg : HandlersRegistry) (key : String) :
    Nat × HandlersRegistry :=
  match reg.entries.lookup key with
  | some handler => (handler, reg)
  | none =>
      (reg.constructed,
       { entries := (key, reg.constructed) :: reg.entries
         constructed := reg.constructed + 1
         subtrees := (pathRoot ++ key) :: reg.subtrees })

/-- A sequence of `n` getOrCreate calls for the same key, returning the `n`
references handed out and the final registry. -/
def getOrCreateN (pathRoot : String) (reg : HandlersRegistry) (key : String) :
    Nat → List Nat × HandlersRegistry
  | 0 => ([], reg)
  | n + 1 =>
      let step := getOrCreate pathRoot reg key
      let rest := getOrCreateN pathRoot step.2 key n
      (step.1 :: rest.1, rest.2)

theorem getOrCreate_lookup_self (pathRoot : String) (reg : HandlersRegistry)
    (key : String) :
    ((getOrCreate pathRoot reg key).2).entries.lookup key =
      some (getOrCreate pathRoot reg key).1 := by
  unfold getOrCreate
  cases h : reg.entries.lookup key with
  | some handler => simp [h]
  | none => simp [h, List.lookup]

theorem getOrCreate_of_lookup (pathRoot : String) (reg : HandlersRegistry)
    (key : String) (handler : Nat)
    (h : reg.entries.lookup key = some handler) :
    getOrCreate pathRoot reg key = (handler, reg) := by
  unfold getOrCreate
  rw [h]

theorem getOrCreateN_stable (pathRoot : String) (key : String) (handler : Nat)
    (n : Nat) (reg : HandlersRegistry)
    (h : reg.entries.lookup key = some handler) :
    getOrCreateN pathRoot reg key n = (List.replicate n handler, reg) := by
  induction n generalizing reg with
  | zero => rfl
  | succ n ih =>
      unfold getOrCreateN
      rw [getOrCreate_of_lookup pathRoot reg key handler h]
      simp [ih reg h, List.replicate]

/-- C6: calling the lock-guarded getOrCreate again for the same key returns
the same sub-handler reference and leaves the registry untouched; a sequence
of `n+1` calls hands out `n+1` references that are all the reference returned
by the first call, performs exactly the constructions of the first call (at
most one in total) and mounts no further route subtree. -/
theorem registry_getOrCreate_once (pathRoot : String) (reg : HandlersRegistry)
    (key : String) :
    (getOrCreate pathRoot ((getOrCreate pathRoot reg key).2) key =
      getOrCreate pathRoot reg key) ∧
    (∀ n : Nat,
      (getOrCreateN pathRoot reg key (n + 1)).1 =
        List.replicate (n + 1) (getOrCreate pathRoot reg key).1 ∧
      (getOrCreateN pathRoot reg key (n + 1)).2 =
        (getOrCreate pathRoot reg key).2 ∧
      (getOrCreateN pathRoot reg key (n + 1)).2.constructed ≤
        reg.constructed + 1 ∧
      (getOrCreateN pathRoot reg key (n + 1)).2.subtrees.length ≤
        reg.subtrees.length + 1) := by
  have hstable := getOrCreate_lookup_self pathRoot reg key
  constructor
  · rw [getOrCreate_of_lookup pathRoot _ key _ hstable]
  · intro n
    have hN : getOrCreateN pathRoot reg key (n + 1) =
        ((getOrCreate pathRoot reg key).1 ::
          List.replicate n (getOrCreate pathRoot reg key).1,
         (getOrCreate pathRoot reg key).2) := by
      simp only [getOrCreateN]
      rw [getOrCreateN_stable pathRoot key _ n _ hstable]
    rw [hN]

    refine ⟨rfl, rfl, ?_, ?_⟩
    · unfold getOrCreate
      cases h : reg.entries.lookup key <;> simp [h]
    · unfold getOrCreate
      cases h : reg.entries.lookup key <;> simp [h]

/-- The registry together with the record of which sub-handlers had their
lifecycle methods invoked by the backend event hooks. -/
structure DeviceHandlersState where
  registry : HandlersRegistry
  initCalled : List (Nat × String)
  uninitCalled : List Nat
  deriving DecidableEq, Repr

/-- Embedding of the `OnDeviceUninit` hook (handlers.go lines 211-213):
`getDeviceHandlers(deviceID).Uninit()` — the lookup-or-create closure is
called first, so an unseen key is lazily created, and `Uninit()` is then
invoked on the returned sub-handler.  The account hook (lines 191-193) has
the same shape with the account registry. -/
def onDeviceUninit (s : DeviceHandlersState) (deviceID : String) :
    DeviceHandlersState :=
  let (handler, reg') := getOrCreate "/devices/" s.registry deviceID
  { s with registry := reg', uninitCalled := s.uninitCalled ++ [handler] }

/-- The state before any "init" event: nothing registered, nothing
constructed. -/
def initialDeviceHandlersState : DeviceHandlersState :=
  { registry := { entries := [], constructed := 0, subtrees := [] }
    initCalled := []
    uninitCalled := [] }

/-- C9 (counterexample): an "uninit" event for a device key with no prior
"init" is not guarded — it lazily constructs a fresh sub-handler (the
registry gains the key, the construction count rises to one, a route subtree
is mounted) and immediately calls `Uninit()` on it. -/
theorem uninit_without_init_creates_entry :
    (onDeviceUninit initialDeviceHandlersState "bitbox-1").registry.entries =
      [("bitbox-1", 0)] ∧
    (onDeviceUninit initialDeviceHandlersState "bitbox-1").registry.constructed = 1 ∧
    (onDeviceUninit initialDeviceHandlersState "bitbox-1").registry.subtrees =
      ["/devices/bitbox-1"] ∧
    (onDeviceUninit initialDeviceHandlersState "bitbox-1").uninitCalled = [0] := by
  decide

/-- C9 (amended): handling an "uninit" event for a key with no prior "init"
does not fail, but there is no guard: the hook lazily constructs a fresh
sub-handler for the key, mounts its route subtree, and immediately calls
`Uninit()` on the new sub-handler. -/
theorem uninit_without_init_behaviour (s : DeviceHandlersState)
    (deviceID : String) (h : s.registry.entries.lookup deviceID = none) :
    (onDeviceUninit s deviceID).registry.entries.lookup deviceID =
      some s.registry.constructed ∧
    (onDeviceUninit s deviceID).registry.constructed =
      s.registry.constructed + 1 ∧
    (onDeviceUninit s deviceID).registry.subtrees =
      ("/devices/" ++ deviceID) :: s.registry.subtrees ∧
    (onDeviceUninit s deviceID).uninitCalled =
      s.uninitCalled ++ [s.registry.constructed] := by
  unfold onDeviceUninit getOrCreate
  rw [h]
  refine ⟨?_, rfl, rfl, rfl⟩
  simp [List.lookup]

theorem uninit_without_init_behaviour_witness :
    (onDeviceUninit initialDeviceHandlersState "bitbox-1").registry.entries.lookup
        "bitbox-1" = some 0 ∧
    (onDeviceUninit initialDeviceHandlersState "bitbox-1").registry.constructed = 1 ∧
    (onDeviceUninit initialDeviceHandlersState "bitbox-1").registry.subtrees =
      ["/devices/bitbox-1"] ∧
    (onDeviceUninit initialDeviceHandlersState "bitbox-1").uninitCalled = [0] := by
  have h := uninit_without_init_behaviour initialDeviceHandlersState "bitbox-1"
    (by decide)
  simpa using h

/-- A Go `time.Time` in the relevant granularity: a calendar day (as a count
of days) and the clock time within the day (as seconds).  `AddDate(0, 0, d)`
adds `d` calendar days keeping the clock time, which this model captures
exactly; time zones are not modelled. -/
structure GoTime where
  day : Int
  secondsOfDay : Nat
  deriving DecidableEq, Repr

/-- Embedding of `t.AddDate(0, 0, d)`: the same clock time `d` calendar days
later. -/
def addDateDays (t : GoTime) (d : Int) : GoTime :=
  { t with day := t.day + d }

/-- Order on the modelled times: earlier day, or the same day and no later
clock time. -/
def timeLE (a b : GoTime) : Prop :=
  a.day < b.day ∨ (a.day = b.day ∧ a.secondsOfDay ≤ b.secondsOfDay)

/-- Strict order on the modelled times. -/
def timeLT (a b : GoTime) : Prop :=
  a.day < b.day ∨ (a.day = b.day ∧ a.secondsOfDay < b.secondsOfDay)

/-- A `pkix.Name` with the fields the certificate template fills in. -/
structure PkixName where
  country : List String
  organization : List String
  organizationalUnit : List String
  deriving DecidableEq, Repr

/-- The `x509.Certificate` template fields set by
`createSelfSignedCertificate` (server.go lines 49-64). -/
structure X509CertTemplate where
  serialNumber : Int
  subject : PkixName
  notBefore : GoTime
  notAfter : GoTime
  keyUsage : List String
  extKeyUsage : List String
  basicConstraintsValid : Bool
  ipAddresses : List String
  dnsNames : List String
  isCA : Bool
  deriving DecidableEq, Repr

/-- The fields of the issued certificate that the development reasons about. -/
structure X509Certificate where
  serialNumber : Int
  issuer : PkixName
  subject : PkixName
  notBefore : GoTime
  notAfter : GoTime
  basicConstraintsValid : Bool
  ipAddresses : List String
  dnsNames : List String
  isCA : Bool
  deriving DecidableEq, Repr

/-- Embedding of `x509.CreateCertificate(rand, template, parent, pub, priv)`:
the issued certificate carries the template's fields and the parent's subject
as its issuer. -/
def createCertificate (template parent : X509CertTemplate) : X509Certificate :=
  { serialNumber := template.serialNumber
    issuer := parent.subject
    subject := template.subject
    notBefore := template.notBefore
    notAfter := template.notAfter
    basicConstraintsValid := template.basicConstraintsValid
    ipAddresses := template.ipAddresses
    dnsNames := template.dnsNames
    isCA := template.isCA }

/-- Embedding of `createSelfSignedCertificate` (server.go lines 44-71),
parameterised over `now`, the value of `time.Now()` at generation:
`notBefore = now`, `notAfter = notBefore.AddDate(0, 0, 1)`, fixed subject and
SANs, CA flag set, and the template passed as its own parent. -/
def createSelfSignedCertificate (now : GoTime) : X509Certificate :=
  let notBefore := now
  let notAfter := addDateDays notBefore 1
  let template : X509CertTemplate :=
    { serialNumber := 0
      subject :=
        { country := ["CH"]
          organization := ["Shift Cryptosecurity"]
          organizationalUnit := ["godbb"] }
      notBefore := notBefore
      notAfter := notAfter
      keyUsage := ["KeyEncipherment", "DigitalSignature", "CertSign"]
      extKeyUsage := ["ServerAuth"]
      basicConstraintsValid := true
      ipAddresses := ["127.0.0.1", "::1"]
      dnsNames := ["localhost"]
      isCA := true }
  createCertificate template template

/-- C7: the generated certificate's `notAfter` is the same clock time exactly
one calendar day after `notBefore`; `notBefore` and `notAfter` bracket the
generation timestamp; the certificate is self-signed (issuer equals subject),
is marked as a certificate authority, and is bound only to localhost,
127.0.0.1 and ::1. -/
theorem selfSignedCertificate_shape (now : GoTime) :
    (createSelfSignedCertificate now).notAfter.day =
      (createSelfSignedCertificate now).notBefore.day + 1 ∧
    (createSelfSignedCertificate now).notAfter.secondsOfDay =
      (createSelfSignedCertificate now).notBefore.secondsOfDay ∧
    (createSelfSignedCertificate now).notBefore = now ∧
    timeLE (createSelfSignedCertificate now).notBefore now ∧
    timeLT now (createSelfSignedCertificate now).notAfter ∧
    (createSelfSignedCertificate now).issuer =
      (createSelfSignedCertificate now).subject ∧
    (createSelfSignedCertificate now).isCA = true ∧
    (createSelfSignedCertificate now).dnsNames = ["localhost"] ∧
    (createSelfSignedCertificate now).ipAddresses = ["127.0.0.1", "::1"] := by
  refine ⟨rfl, rfl, rfl, Or.inr ⟨rfl, Nat.le_refl _⟩, Or.inl ?_, rfl, rfl, rfl, rfl⟩
  show now.day < now.day + 1
  omega

/-- The error environment of one `saveAsPEM` run (server.go lines 73-97): the
outcome of each of its four fallible steps (`os.MkdirAll`, `os.Create`,
`pem.Encode`, `Close`), `none` meaning the step succeeds. -/
structure PEMSaveEnv where
  mkdirErr : Option String
  createErr : Option String
  encodeErr : Option String
  closeErr : Option String
  deriving DecidableEq, Repr

/-- How a call into `saveAsPEM` leaves the process: `log.Fatalf` terminates
the whole process (it calls `os.Exit(1)`), so the `return err` after each
`log.Fatalf` in the source is unreachable; only a run with no failing step
reaches the final `return nil`. -/
inductive ProcessOutcome where
  | fatalExit (stage message : String) : ProcessOutcome
  | returned (err : Option String) : ProcessOutcome
  deriving DecidableEq, Repr

/-- Embedding of `saveAsPEM` (server.go lines 73-97): each step, in order,
checks its error and calls `log.Fatalf` — terminating the process — when it
failed. -/
def saveAsPEM (env : PEMSaveEnv) : ProcessOutcome :=
  match env.mkdirErr with
  | some e => .fatalExit "mkdir" e
  | none =>
      match env.createErr with
      | some e => .fatalExit "create" e
      | none =>
          match env.encodeErr with
          | some e => .fatalExit "encode" e
          | none =>
              match env.closeErr with
              | some e => .fatalExit "close" e
              | none => .returned none

/-- Whether `serve` (server.go lines 142-143 and onward) gets to continue
past its `saveAsPEM` call and start the listener: `serve` ignores the
returned error, but a `log.Fatalf` inside `saveAsPEM` never returns. -/
def serveContinuesAfterSave (env : PEMSaveEnv) : Bool :=
  match saveAsPEM env with
  | .fatalExit _ _ => false
  | .returned _ => true

/-- C8 (code evaluation at the failing input): a failure in any persistence
step makes `saveAsPEM` terminate the process via `log.Fatalf` — serving
continues only when every step succeeded — contradicting the claim that a
persistence failure is merely logged and serving continues on the in-memory
identity. -/
theorem persistFailure_aborts_process :
    (∀ env : PEMSaveEnv,
      serveContinuesAfterSave env = true ↔ env = ⟨none, none, none, none⟩) ∧
    saveAsPEM ⟨some "permission denied", none, none, none⟩ =
      .fatalExit "mkdir" "permission denied" := by
  constructor
  · intro env
    obtain ⟨m, c, e, cl⟩ := env
    cases m <;> cases c <;> cases e <;> cases cl <;>
      simp [serveContinuesAfterSave, saveAsPEM]
  · rfl

/-- Decimal formatting of a non-special rational with a fixed number of
fraction digits, modelling `strconv.FormatFloat(x, 'f', digits, 64)`; the
rounding of the last digit is by truncation of the magnitude here (Go rounds
to nearest), which agrees with Go on all exactly representable values with at
most `digits` fraction digits. -/
def formatFixedDecimal (q : ℚ) (digits : Nat) : String :=
  let scale := 10 ^ digits
  let scaledAbs := q.num.natAbs * scale / q.den
  let intPart := scaledAbs / scale
  let fracPart := scaledAbs % scale
  let fracStr := toString fracPart
  let fracPadded := String.pushn "" '0' (digits - fracStr.length) ++ fracStr
  (if q.num < 0 && scaledAbs != 0 then "-" else "") ++
    toString intPart ++ "." ++ fracPadded

/-- Embedding of `getConvertFromFiatHandler` (handlers.go lines 436-456)
after query extraction: `rates` models `handlers.backend.Rates()`,
`amountParam` the result of `strconv.ParseFloat` on the amount parameter
(`none` on a parse error); note the reversed index order
`Rates()[to][from]`.  Floating-point amounts are modelled as rationals; the
second component records whether the division branch was executed. -/
def getConvertFromFiatHandler (rates : String → String → ℚ)
    (fromCurrency toCurrency : String) (amountParam : Option ℚ) :
    JSONValue × Bool :=
  match amountParam with
  | none =>
      (.obj [("success", .bool false), ("errMsg", .str "invalid amount")], false)
  | some amountAsFloat =>
      let rate := rates toCurrency fromCurrency
      let (result, divided) : ℚ × Bool :=
        if rate ≠ 0 then (amountAsFloat / rate, true) else (0, false)
      (.obj [("success", .bool true),
             ("amount", .str (formatFixedDecimal result 8))], divided)

/-- C10: when the looked-up rate for the pair is 0 the handler performs no
division and answers success with amount "0.00000000"; the division branch
runs only when the rate is non-zero. -/
theorem convertFromFiat_zero_rate (rates : String → String → ℚ)
    (fromCurrency toCurrency : String) (amount : ℚ) :
    (rates toCurrency fromCurrency = 0 →
      getConvertFromFiatHandler rates fromCurrency toCurrency (some amount) =
        (.obj [("success", .bool true), ("amount", .str "0.00000000")], false)) ∧
    (rates toCurrency fromCurrency ≠ 0 →
      (getConvertFromFiatHandler rates fromCurrency toCurrency
        (some amount)).2 = true) := by
  constructor
  · intro hrate
    unfold getConvertFromFiatHandler
    rw [hrate]
    simp only [ne_eq, not_true_eq_false, if_false, ite_false]
    have hfmt : formatFixedDecimal 0 8 = "0.00000000" := by decide
    rw [hfmt]
  · intro hrate
    unfold getConvertFromFiatHandler
    simp only [if_pos hrate]

theorem convertFromFiat_zero_rate_witness :
    getConvertFromFiatHandler (fun _ _ => 0) "USD" "BTC" (some 5) =
      (.obj [("success", .bool true), ("amount", .str "0.00000000")], false) :=
  (convertFromFiat_zero_rate (fun _ _ => 0) "USD" "BTC" 5).1 rfl

end BitBoxGateway
